import Mathlib

/-!
Verification development for the MWPToolkit training-orchestration core
(`mwptoolkit/trainer/trainer.py`).  The trainer classes are shallowly
embedded: Python dicts become association lists (later bindings in a dict
literal overwrite earlier ones), Python runtime failures become `Except`
errors, floats become exact rationals (only ordering and equality of the
accuracy values matter to the control logic), and the opaque neural
collaborators (model, evaluator, data loader) become explicit parameters.
-/

set_option autoImplicit false

namespace MWP

/-- Python runtime errors raised by the trainer code paths modelled here. -/
inductive PyErr where
  | keyError (key : String)
  | attributeError (a : String)
  | zeroDivision
  | typeErrorMissingArg (fn arg : String)
  | indexError
deriving DecidableEq, Repr

/-- Lookup in a Python dict built from a literal list of bindings: a later
binding for the same key overwrites an earlier one, which the lookup on the
reversed list reproduces. -/
def pyDictLookup {α : Type} (entries : List (String × α)) (key : String) : Option α :=
  entries.reverse.lookup key

/-- Subscript access `d[key]` on a Python dict: missing keys raise KeyError. -/
def pyDictGet {α : Type} (entries : List (String × α)) (key : String) : Except PyErr α :=
  match pyDictLookup entries key with
  | some v => Except.ok v
  | none => Except.error (PyErr.keyError key)

/-- Subscript access `l[i]` on a Python list at a nonnegative index. -/
def pyListGet {α : Type} (l : List α) (i : Nat) : Except PyErr α :=
  match l[i]? with
  | some v => Except.ok v
  | none => Except.error PyErr.indexError

/-- Count of `True` entries, as in Python's `list.count(True)`. -/
def countTrue (l : List Bool) : Int :=
  l.foldl (fun n b => if b then n + 1 else n) 0

/-- Values stored in a checkpoint dict.  Model, optimizer and scheduler
`state_dict()` blobs are opaque to the trainer and are modelled by ids. -/
inductive CkptVal where
  | blob (id : Nat)
  | intVal (n : Int)
  | ratVal (q : Rat)
deriving DecidableEq, Repr

/-- Decode a stored blob (Python is untyped; the trainer only ever reads a
key back with the kind it stored there). -/
def CkptVal.asBlob : CkptVal → Nat
  | .blob n => n
  | _ => 0

/-- Decode a stored int. -/
def CkptVal.asInt : CkptVal → Int
  | .intVal n => n
  | _ => 0

/-- Decode a stored rational (Python float). -/
def CkptVal.asRat : CkptVal → Rat
  | .ratVal q => q
  | _ => 0

/-- Checkpoint-relevant state of the single-optimizer trainers
(`Trainer`, `SingleEquationTrainer`, `MultiEquationTrainer`,
`TransformerTrainer`), which share their `_save_checkpoint` and
`_load_checkpoint` bodies verbatim. -/
structure TrainerCkptState where
  modelBlob : Nat
  optimizerBlob : Nat
  startEpoch : Int
  epochI : Int
  bestValidValue : Rat
  bestValidEqu : Rat
  bestTestValue : Rat
  bestTestEqu : Rat
deriving DecidableEq, Repr

/-- Embeds `Trainer._save_checkpoint` (trainer.py lines 75-85): the
checkpoint dict in source order.  Note the `"start_epoch"` slot stores the
current `epoch_i`. -/
def saveCheckpoint (st : TrainerCkptState) : List (String × CkptVal) :=
  [("model", CkptVal.blob st.modelBlob),
   ("optimizer", CkptVal.blob st.optimizerBlob),
   ("start_epoch", CkptVal.intVal st.epochI),
   ("best_valid_value_accuracy", CkptVal.ratVal st.bestValidValue),
   ("best_valid_equ_accuracy", CkptVal.ratVal st.bestValidEqu),
   ("best_test_value_accuracy", CkptVal.ratVal st.bestTestValue),
   ("best_test_equ_accuracy", CkptVal.ratVal st.bestTestEqu)]

/-- Embeds `Trainer._load_checkpoint` (trainer.py lines 87-99): each key is
read by dict subscript, so a missing key raises KeyError. -/
def loadCheckpoint (st : TrainerCkptState) (ckpt : List (String × CkptVal)) :
    Except PyErr TrainerCkptState := do
  let m ← pyDictGet ckpt "model"
  let o ← pyDictGet ckpt "optimizer"
  let se ← pyDictGet ckpt "start_epoch"
  let bvv ← pyDictGet ckpt "best_valid_value_accuracy"
  let bve ← pyDictGet ckpt "best_valid_equ_accuracy"
  let btv ← pyDictGet ckpt "best_test_value_accuracy"
  let bte ← pyDictGet ckpt "best_test_equ_accuracy"
  Except.ok { st with
    modelBlob := m.asBlob
    optimizerBlob := o.asBlob
    startEpoch := se.asInt
    bestValidValue := bvv.asRat
    bestValidEqu := bve.asRat
    bestTestValue := btv.asRat
    bestTestEqu := bte.asRat }

/-- Checkpoint-relevant state of `GTSTrainer`: five optimizer blobs and
five scheduler blobs beside the shared counters. -/
structure GTSCkptState where
  modelBlob : Nat
  embedderOpt : Nat
  encoderOpt : Nat
  decoderOpt : Nat
  nodeGeneraterOpt : Nat
  mergeOpt : Nat
  embedderSch : Nat
  encoderSch : Nat
  decoderSch : Nat
  nodeGeneraterSch : Nat
  mergeSch : Nat
  startEpoch : Int
  epochI : Int
  bestValidValue : Rat
  bestValidEqu : Rat
  bestTestValue : Rat
  bestTestEqu : Rat
deriving DecidableEq, Repr

/-- Embeds `GTSTrainer._save_checkpoint` (trainer.py lines 585-604).  The
dict literal lists the key `"decoder_optimizer"` twice (lines 590 and 595,
the second where the decoder scheduler was evidently meant), so the entry
`"decoder_scheduler"` is never written and the second `"decoder_optimizer"`
binding overwrites the first. -/
def gtsSaveCheckpoint (st : GTSCkptState) : List (String × CkptVal) :=
  [("model", CkptVal.blob st.modelBlob),
   ("embedder_optimizer", CkptVal.blob st.embedderOpt),
   ("encoder_optimizer", CkptVal.blob st.encoderOpt),
   ("decoder_optimizer", CkptVal.blob st.decoderOpt),
   ("generate_optimizer", CkptVal.blob st.nodeGeneraterOpt),
   ("merge_optimizer", CkptVal.blob st.mergeOpt),
   ("embedder_scheduler", CkptVal.blob st.embedderSch),
   ("encoder_scheduler", CkptVal.blob st.encoderSch),
   ("decoder_optimizer", CkptVal.blob st.decoderOpt),
   ("generate_scheduler", CkptVal.blob st.nodeGeneraterSch),
   ("merge_scheduler", CkptVal.blob st.mergeSch),
   ("start_epoch", CkptVal.intVal st.epochI),
   ("best_valid_value_accuracy", CkptVal.ratVal st.bestValidValue),
   ("best_valid_equ_accuracy", CkptVal.ratVal st.bestValidEqu),
   ("best_test_value_accuracy", CkptVal.ratVal st.bestTestValue),
   ("best_test_equ_accuracy", CkptVal.ratVal st.bestTestEqu)]

/-- Embeds `GTSTrainer._load_checkpoint` (trainer.py lines 606-627), which
reads the scheduler entries under the keys `"embedding_scheduler"` and
`"decoder_scheduler"`. -/
def gtsLoadCheckpoint (st : GTSCkptState) (ckpt : List (String × CkptVal)) :
    Except PyErr GTSCkptState := do
  let m ← pyDictGet ckpt "model"
  let eo ← pyDictGet ckpt "embedder_optimizer"
  let no ← pyDictGet ckpt "encoder_optimizer"
  let dOpt ← pyDictGet ckpt "decoder_optimizer"
  let go ← pyDictGet ckpt "generate_optimizer"
  let mo ← pyDictGet ckpt "merge_optimizer"
  let es ← pyDictGet ckpt "embedding_scheduler"
  let ns ← pyDictGet ckpt "encoder_scheduler"
  let ds ← pyDictGet ckpt "decoder_scheduler"
  let gs ← pyDictGet ckpt "generate_scheduler"
  let ms ← pyDictGet ckpt "merge_scheduler"
  let se ← pyDictGet ckpt "start_epoch"
  let bvv ← pyDictGet ckpt "best_valid_value_accuracy"
  let bve ← pyDictGet ckpt "best_valid_equ_accuracy"
  let btv ← pyDictGet ckpt "best_test_value_accuracy"
  let bte ← pyDictGet ckpt "best_test_equ_accuracy"
  Except.ok { st with
    modelBlob := m.asBlob
    embedderOpt := eo.asBlob
    encoderOpt := no.asBlob
    decoderOpt := dOpt.asBlob
    nodeGeneraterOpt := go.asBlob
    mergeOpt := mo.asBlob
    embedderSch := es.asBlob
    encoderSch := ns.asBlob
    decoderSch := ds.asBlob
    nodeGeneraterSch := gs.asBlob
    mergeSch := ms.asBlob
    startEpoch := se.asInt
    bestValidValue := bvv.asRat
    bestValidEqu := bve.asRat
    bestTestValue := btv.asRat
    bestTestEqu := bte.asRat }

/-- Checkpoint-relevant state of `SeqGANTrainer`.  The attributes
`best_value_accuracy` and `best_equ_accuracy` are assigned nowhere except
inside `_load_checkpoint`, hence they are optional here. -/
structure SeqGANCkptState where
  modelBlob : Nat
  generatorOpt : Nat
  discriminatorOpt : Nat
  startEpoch : Int
  epochI : Int
  bestValidValue : Rat
  bestValidEqu : Rat
  bestTestValue : Rat
  bestTestEqu : Rat
  bestValueAccuracy : Option Rat
  bestEquAccuracy : Option Rat
deriving DecidableEq, Repr

/-- Embeds `SeqGANTrainer._save_checkpoint` (trainer.py lines 952-962): no
`"start_epoch"`, `"value_acc"` or `"equ_acc"` entry is written. -/
def seqganSaveCheckpoint (st : SeqGANCkptState) : List (String × CkptVal) :=
  [("model", CkptVal.blob st.modelBlob),
   ("generator_optimizer", CkptVal.blob st.generatorOpt),
   ("discriminator_optimizer", CkptVal.blob st.discriminatorOpt),
   ("best_valid_value_accuracy", CkptVal.ratVal st.bestValidValue),
   ("best_valid_equ_accuracy", CkptVal.ratVal st.bestValidEqu),
   ("best_test_value_accuracy", CkptVal.ratVal st.bestTestValue),
   ("best_test_equ_accuracy", CkptVal.ratVal st.bestTestEqu)]

/-- Embeds `SeqGANTrainer._load_checkpoint` (trainer.py lines 964-975),
which reads `"start_epoch"`, `"value_acc"` and `"equ_acc"`. -/
def seqganLoadCheckpoint (st : SeqGANCkptState) (ckpt : List (String × CkptVal)) :
    Except PyErr SeqGANCkptState := do
  let m ← pyDictGet ckpt "model"
  let go ← pyDictGet ckpt "generator_optimizer"
  let dOpt ← pyDictGet ckpt "discriminator_optimizer"
  let se ← pyDictGet ckpt "start_epoch"
  let va ← pyDictGet ckpt "value_acc"
  let ea ← pyDictGet ckpt "equ_acc"
  Except.ok { st with
    modelBlob := m.asBlob
    generatorOpt := go.asBlob
    discriminatorOpt := dOpt.asBlob
    startEpoch := se.asInt
    bestValueAccuracy := some va.asRat
    bestEquAccuracy := some ea.asRat }

/-- Per-example correctness lists produced by `_eval_batch` for one batch
(the model and evaluator are opaque, so the lists are taken as given). -/
structure BatchEvalResult where
  valAcc : List Bool
  equAcc : List Bool
deriving DecidableEq, Repr

/-- Embeds the shared body of `evaluate` (trainer.py lines 198-212 and its
verbatim copies at lines 364, 530, 737, 900, 1131): accumulate counts over
the batches, then divide by the total.  Python's division raises
ZeroDivisionError when `eval_total` is zero. -/
def evaluateRun (batches : List BatchEvalResult) : Except PyErr (Rat × Rat × Int) :=
  let valueAc : Int := batches.foldl (fun n b => n + countTrue b.valAcc) 0
  let equationAc : Int := batches.foldl (fun n b => n + countTrue b.equAcc) 0
  let evalTotal : Int := batches.foldl (fun n b => n + (b.valAcc.length : Int)) 0
  if evalTotal = 0 then Except.error PyErr.zeroDivision
  else Except.ok ((equationAc : Rat) / (evalTotal : Rat), (valueAc : Rat) / (evalTotal : Rat), evalTotal)

/-- The four best-so-far accuracy fields of a trainer. -/
structure Metrics where
  bestValidEqu : Rat
  bestValidValue : Rat
  bestTestEqu : Rat
  bestTestValue : Rat
deriving DecidableEq, Repr

/-- Results returned by the validation and test evaluations at one
evaluation point of `fit` (opaque model, so taken as given per epoch). -/
structure EvalOutcome where
  validEqu : Rat
  validValue : Rat
  testEqu : Rat
  testValue : Rat
deriving DecidableEq, Repr

/-- Embeds the best-metric update of `fit` (trainer.py lines 184-189):
when `valid_val_ac >= self.best_valid_value_accuracy`, all four fields are
overwritten with the freshly measured accuracies and the model is saved
(`Bool` result); otherwise nothing changes. -/
def updateBest (m : Metrics) (e : EvalOutcome) : Metrics × Bool :=
  if m.bestValidValue ≤ e.validValue then
    ({ bestValidEqu := e.validEqu
       bestValidValue := e.validValue
       bestTestEqu := e.testEqu
       bestTestValue := e.testValue }, true)
  else (m, false)

/-- Observable events of one run of `fit`. -/
inductive FitEvent where
  | trainEpoch (epochI : Int)
  | evalPoint (epo : Int) (results : EvalOutcome)
  | saveModel (epo : Int)
  | saveCkpt (epo : Int)
deriving DecidableEq, Repr

/-- Embeds one iteration of the epoch loop of `fit` (trainer.py lines
166-191; the `GTSTrainer` loop at lines 709-735 differs only in the
evaluation period).  `evalEvery` is 2 for `Trainer`,
`SingleEquationTrainer`, `MultiEquationTrainer` and `TransformerTrainer`,
and 10 for `GTSTrainer`; `measure` gives the opaque evaluation results of
the two splits at that epoch. -/
def fitStep (evalEvery epochNums : Int) (measure : Int → EvalOutcome)
    (m : Metrics) (epo : Int) : Metrics × List FitEvent :=
  let p : Metrics × List FitEvent :=
    if epo % evalEvery == 0 || epo > epochNums - 5 then
      ((updateBest m (measure epo)).1,
       [FitEvent.evalPoint epo (measure epo)] ++
         (if (updateBest m (measure epo)).2 then [FitEvent.saveModel epo] else []))
    else (m, [])
  let ckptEvents := if epo % 5 == 0 then [FitEvent.saveCkpt epo] else []
  (p.1, [FitEvent.trainEpoch (epo + 1)] ++ p.2 ++ ckptEvents)

/-- The epoch loop of `fit`, folded over a list of epoch indices. -/
def fitLoop (evalEvery epochNums : Int) (measure : Int → EvalOutcome) :
    Metrics → List Int → Metrics × List FitEvent
  | m, [] => (m, [])
  | m, epo :: rest =>
    let s := fitStep evalEvery epochNums measure m epo
    let t := fitLoop evalEvery epochNums measure s.1 rest
    (t.1, s.2 ++ t.2)

/-- Python's `range(a, b)` over ints. -/
def pyRange (a b : Int) : List Int :=
  (List.range (b - a).toNat).map (fun (i : Nat) => a + (i : Int))

/-- Attribute access on the best-metric fields of a trainer: the four
fields initialised in `AbstractTrainer.__init__` exist, any other name
raises AttributeError. -/
def metricsGetAttr (m : Metrics) (a : String) : Except PyErr Rat :=
  if a = "best_valid_equ_accuracy" then Except.ok m.bestValidEqu
  else if a = "best_valid_value_accuracy" then Except.ok m.bestValidValue
  else if a = "best_test_equ_accuracy" then Except.ok m.bestTestEqu
  else if a = "best_test_value_accuracy" then Except.ok m.bestTestValue
  else Except.error (PyErr.attributeError a)

/-- Embeds the argument tuple of the final summary log of `fit`
(trainer.py lines 192-196; verbatim copies at lines 359-363 and 525-529).
As written, the third expression of the tuple is
`self.best_test_equ_accuracyself.best_test_value_accuracy`, an access to
the attribute `best_test_equ_accuracyself`. -/
def finalSummaryArgs (m : Metrics) : Except PyErr (List Rat) := do
  let a ← metricsGetAttr m "best_valid_equ_accuracy"
  let b ← metricsGetAttr m "best_valid_value_accuracy"
  let c ← metricsGetAttr m "best_test_equ_accuracyself"
  Except.ok [a, b, c]

/-- Embeds `Trainer.fit` (trainer.py lines 160-196), as shared verbatim by
`SingleEquationTrainer.fit` and `MultiEquationTrainer.fit`: the epoch loop
followed by the final summary log. -/
def trainerFit (startEpoch epochNums : Int) (measure : Int → EvalOutcome)
    (m : Metrics) : List FitEvent × Except PyErr (List Rat) :=
  let r := fitLoop 2 epochNums measure m (pyRange startEpoch epochNums)
  (r.2, finalSummaryArgs r.1)

/-- Embeds the epoch loop of `GTSTrainer.fit` (trainer.py lines 705-735),
whose evaluation schedule is `epo % 10 == 0 or epo > epoch_nums - 5` and
which has no final summary log. -/
def gtsFit (startEpoch epochNums : Int) (measure : Int → EvalOutcome)
    (m : Metrics) : Metrics × List FitEvent :=
  fitLoop 10 epochNums measure m (pyRange startEpoch epochNums)

/-- Truth of `FitEvent.evalPoint epo _` membership in a trace. -/
def hasEvalAt (evs : List FitEvent) (epo : Int) : Bool :=
  evs.any fun ev =>
    match ev with
    | FitEvent.evalPoint e _ => e == epo
    | _ => false

/-- Re-indexing of one target token (trainer.py lines 112-114):
`out_symbol2idx[in_idx2word[token]]`; the inner access is a list index,
the outer a dict lookup that raises KeyError for an absent word. -/
def reindexTok (inIdx2word : List String) (outSymbol2idx : List (String × Int))
    (tok : Nat) : Except PyErr Int := do
  let w ← pyListGet inIdx2word tok
  pyDictGet outSymbol2idx w

/-- Inner loop of `_idx2word_2idx` over the positions of one batch row. -/
def reindexRow (inIdx2word : List String) (outSymbol2idx : List (String × Int)) :
    List Nat → Except PyErr (List Int)
  | [] => Except.ok []
  | tok :: rest => do
    let v ← reindexTok inIdx2word outSymbol2idx tok
    let vs ← reindexRow inIdx2word outSymbol2idx rest
    Except.ok (v :: vs)

/-- Embeds `Trainer._idx2word_2idx` (trainer.py lines 106-117; verbatim
copies in the other variants): the nested loops over batch rows and token
positions. -/
def idx2word2idx (inIdx2word : List String) (outSymbol2idx : List (String × Int)) :
    List (List Nat) → Except PyErr (List (List Int))
  | [] => Except.ok []
  | row :: rest => do
    let r ← reindexRow inIdx2word outSymbol2idx row
    let rs ← idx2word2idx inIdx2word outSymbol2idx rest
    Except.ok (r :: rs)

/-- Modelled from the spec's double-lookup description: the per-position
translation `_idx2word_2idx` is claimed to compute, as a pure map. -/
def reindexSpec (inIdx2word : List String) (outSymbol2idx : List (String × Int))
    (tok : Nat) : Option Int :=
  inIdx2word[tok]?.bind (fun w => pyDictLookup outSymbol2idx w)

/-- Parameter lists of the five submodules of the GTS model; torch grants
that parameters of distinct submodules are distinct tensors. -/
structure GTSModel where
  embedderParams : List String
  encoderParams : List String
  decoderParams : List String
  nodeGeneraterParams : List String
  mergeParams : List String
deriving DecidableEq, Repr

/-- The full parameter list `self.model.parameters()` of the GTS model. -/
def GTSModel.allParams (m : GTSModel) : List String :=
  m.embedderParams ++ m.encoderParams ++ m.decoderParams ++
    m.nodeGeneraterParams ++ m.mergeParams

/-- The parameter group and hyperparameters handed to one Adam
constructor call. -/
structure OptimSpec where
  params : List String
  lr : Rat
  weightDecay : Rat
deriving DecidableEq, Repr

/-- A `StepLR` schedule: multiply the learning rate by `gamma` every
`stepSize` epochs. -/
structure SchedSpec where
  stepSize : Int
  gamma : Rat
deriving DecidableEq, Repr

/-- The ten objects built by `GTSTrainer._build_optimizer`. -/
structure GTSOptimSet where
  embedderOptimizer : OptimSpec
  encoderOptimizer : OptimSpec
  decoderOptimizer : OptimSpec
  nodeGeneraterOptimizer : OptimSpec
  mergeOptimizer : OptimSpec
  embedderScheduler : SchedSpec
  encoderScheduler : SchedSpec
  decoderScheduler : SchedSpec
  nodeGeneraterScheduler : SchedSpec
  mergeScheduler : SchedSpec
deriving DecidableEq, Repr

/-- Embeds `GTSTrainer._build_optimizer` (trainer.py lines 571-583).  Note
line 575: the decoder optimizer is constructed over
`self.model.parameters()`, the whole model, not
`self.model.decoder.parameters()`. -/
def gtsBuildOptimizer (m : GTSModel) (lr wd : Rat) (stepSize : Int) : GTSOptimSet :=
  { embedderOptimizer := { params := m.embedderParams, lr := lr, weightDecay := wd }
    encoderOptimizer := { params := m.encoderParams, lr := lr, weightDecay := wd }
    decoderOptimizer := { params := m.allParams, lr := lr, weightDecay := wd }
    nodeGeneraterOptimizer := { params := m.nodeGeneraterParams, lr := lr, weightDecay := wd }
    mergeOptimizer := { params := m.mergeParams, lr := lr, weightDecay := wd }
    embedderScheduler := { stepSize := stepSize, gamma := 1/2 }
    encoderScheduler := { stepSize := stepSize, gamma := 1/2 }
    decoderScheduler := { stepSize := stepSize, gamma := 1/2 }
    nodeGeneraterScheduler := { stepSize := stepSize, gamma := 1/2 }
    mergeScheduler := { stepSize := stepSize, gamma := 1/2 } }

/-- The column `outputs[:, idx] != pad` of `get_reward` (trainer.py line
1035).  Rows of the generated-output tensor have length at least the
number of rollout steps, so the list default is never consulted on the
inputs of interest. -/
def maskAt (padToken : Int) (outputs : List (List Int)) (idx : Nat) : List Bool :=
  outputs.map (fun row => if row.getD idx 0 = padToken then false else true)

/-- One iteration of the reward loop of `get_reward` (trainer.py lines
1032-1039): the discriminator's per-example mean score at this rollout
step, weighted by the token logits and the padding mask; the masked sum is
added only when the mask is nonempty. -/
def rewardStep (padToken : Int) (outputs : List (List Int))
    (discMean tokenLogits : Nat → List Rat) (acc : Rat) (idx : Nat) : Rat :=
  let mask := maskAt padToken outputs idx
  let reward := (((discMean idx).zip (tokenLogits idx)).zip mask).map
    (fun p => p.1.1 * p.1.2 * (if p.2 then 1 else 0))
  let maskSum : Int := countTrue mask
  if maskSum ≠ 0 then acc + (reward.foldl (· + ·) 0) / (maskSum : Rat) else acc

/-- Embeds `SeqGANTrainer.get_reward` (trainer.py lines 1028-1040).
`mcSteps` is `len(monte_carlo_outputs)`; `discMean idx` models
`self.model.discriminator(monte_carlo_outputs[idx]).reshape(batch_size, -1).mean(dim=1)`
and `tokenLogits idx` models `token_logits[idx]`, both opaque. -/
def getReward (padToken : Int) (outputs : List (List Int)) (mcSteps : Nat)
    (discMean tokenLogits : Nat → List Rat) : Rat :=
  -((List.range mcSteps).foldl (rewardStep padToken outputs discMean tokenLogits) 0)

/-- The per-batch inputs of the adversarial phase that matter to the
reward: the target equation tokens of the batch. -/
structure SGBatch where
  equation : List (List Int)
deriving DecidableEq, Repr

/-- The generator results consumed by `get_reward` in `_train_batch`
(trainer.py line 1045): sampled output tokens and the rollout count. -/
structure GenOut where
  outputs : List (List Int)
  mcSteps : Nat

/-- Embeds the generator-loss computation of `SeqGANTrainer._train_batch`
(trainer.py lines 1045-1046): `get_reward` applied to the opaque
generator's outputs for the batch. -/
def advGeneratorLoss (padToken : Int) (gen : SGBatch → GenOut)
    (discMean tokenLogits : Nat → List Rat) (batch : SGBatch) : Rat :=
  getReward padToken (gen batch).outputs (gen batch).mcSteps discMean tokenLogits

/-- Embeds the call `self.evaluate()` of `SeqGANTrainer.fit` (trainer.py
line 1121) against the signature `evaluate(self, eval_set)` (line 1131):
omitting the required positional argument raises TypeError before any
body code runs. -/
def seqganEvaluateCall (arg : Option String) (batches : List BatchEvalResult) :
    Except PyErr (Rat × Rat × Int) :=
  match arg with
  | none => Except.error (PyErr.typeErrorMissingArg "evaluate" "eval_set")
  | some _ => evaluateRun batches

/-- Embeds the adversarial epoch loop of `SeqGANTrainer.fit` (trainer.py
lines 1113-1129) over a list of epoch indices.  `bestValueAcc` is the
`best_value_accuracy` attribute, present only if `_load_checkpoint` ran;
the evaluation call at line 1121 passes no `eval_set`. -/
def seqganFitLoop (epochNums : Int) (batches : List BatchEvalResult)
    (bestValueAcc : Option Rat) : List Int → Except PyErr (Option Rat)
  | [] => Except.ok bestValueAcc
  | epo :: rest =>
    if epo % 2 == 0 || epo > epochNums - 5 then do
      let r ← seqganEvaluateCall none batches
      match bestValueAcc with
      | none => Except.error (PyErr.attributeError "best_value_accuracy")
      | some best =>
        let newBest := if best ≤ r.2.1 then some r.2.1 else some best
        seqganFitLoop epochNums batches newBest rest
    else seqganFitLoop epochNums batches bestValueAcc rest

/-- Embeds `SeqGANTrainer.fit` (trainer.py lines 1103-1129) for a trainer
constructed with `resume` disabled: the pretraining phases touch neither
the epoch counters nor the best-metric attributes, and `_load_checkpoint`
never runs, so `best_value_accuracy` is absent (`none`) when the
adversarial loop starts. -/
def seqganFit (startEpoch epochNums : Int) (batches : List BatchEvalResult) :
    Except PyErr (Option Rat) :=
  seqganFitLoop epochNums batches none (pyRange startEpoch epochNums)

/-- Concrete GTS model with one named parameter per submodule, used to
evaluate `_build_optimizer`. -/
def gtsModelEx : GTSModel :=
  { embedderParams := ["embedder.w"]
    encoderParams := ["encoder.w"]
    decoderParams := ["decoder.w"]
    nodeGeneraterParams := ["node_generater.w"]
    mergeParams := ["merge.w"] }

/-- Evaluation results making the best-test fields decrease: epoch 0 is
measured high, epoch 1 ties on validation value-accuracy with low
accuracies everywhere else. -/
def measC3 : Int → EvalOutcome := fun epo =>
  if epo == 0 then
    { validEqu := 1, validValue := 1, testEqu := 1, testValue := 1 }
  else
    { validEqu := 0, validValue := 1, testEqu := 0, testValue := 0 }

/-- Constant evaluation results for exercising the schedule. -/
def measC4 : Int → EvalOutcome := fun _ => ⟨0, 0, 0, 0⟩

/-- Input vocabulary of the shared-vocabulary scenario: index 3 is
"plus", index 7 is "7", index 2 is "x". -/
def inWC6 : List String := ["pad", "unk", "x", "plus", "a", "b", "c", "7"]

/-- Output vocabulary of the scenario. -/
def outSC6 : List (String × Int) := [("plus", 1), ("7", 5), ("x", 9)]

/-- Output vocabulary with the word "x" missing. -/
def outSC6bad : List (String × Int) := [("plus", 1), ("7", 5)]

/-- Generator that produces all-padding outputs (pad token 5). -/
def genC9pad : SGBatch → GenOut := fun _ => { outputs := [[5, 5]], mcSteps := 2 }

/-- Constant discriminator means for the all-padding scenario. -/
def discC9w : Nat → List Rat := fun _ => [1]

/-- Constant token logits for the all-padding scenario. -/
def logitsC9w : Nat → List Rat := fun _ => [1]

/-- Generator whose sampled output is a non-padding token. -/
def genC9 : SGBatch → GenOut := fun _ => { outputs := [[1]], mcSteps := 1 }

/-- Discriminator giving score 1 to every rollout. -/
def discC9 : Nat → List Rat := fun _ => [1]

/-- Token logits equal to 1. -/
def logitsC9 : Nat → List Rat := fun _ => [1]

/-! ## Theorems -/

/-- C1: the checkpoint round trip does not restore the trainer state for
every variant.  For the tree-decoder (`GTSTrainer`) variant, loading the
dict just saved raises `KeyError("embedding_scheduler")` (save writes
`"embedder_scheduler"`, and the duplicated `"decoder_optimizer"` key means
`"decoder_scheduler"` is never written either); for the adversarial
(`SeqGANTrainer`) variant it raises `KeyError("start_epoch")` (save writes
no such key).  For the four single-optimizer variants the round trip
succeeds, restoring the four best-accuracy fields and setting the start
epoch to the epoch counter at save time. -/
theorem claim_C1_checkpoint_roundtrip_keyerror :
    (∀ st0 st1 : GTSCkptState,
      gtsLoadCheckpoint st1 (gtsSaveCheckpoint st0) =
        Except.error (PyErr.keyError "embedding_scheduler"))
    ∧ (∀ su0 su1 : SeqGANCkptState,
      seqganLoadCheckpoint su1 (seqganSaveCheckpoint su0) =
        Except.error (PyErr.keyError "start_epoch"))
    ∧ (∀ st st' : TrainerCkptState,
      loadCheckpoint st' (saveCheckpoint st) =
        Except.ok { st' with
          modelBlob := st.modelBlob
          optimizerBlob := st.optimizerBlob
          startEpoch := st.epochI
          bestValidValue := st.bestValidValue
          bestValidEqu := st.bestValidEqu
          bestTestValue := st.bestTestValue
          bestTestEqu := st.bestTestEqu }) :=
  ⟨fun _ _ => rfl, fun _ _ => rfl, fun _ _ => rfl⟩

/-- C2: `evaluate` on a split that yields zero batches does not return a
zero-accuracy tuple; it raises ZeroDivisionError from the unguarded
`equation_ac / eval_total`. -/
theorem claim_C2_empty_split_zero_division :
    evaluateRun [] = Except.error PyErr.zeroDivision := rfl

/-- C7: `fit` in the single- and multi-equation trainers does not
terminate normally: after the last epoch, evaluating the final summary's
argument tuple raises `AttributeError("best_test_equ_accuracyself")`,
because the source concatenates two attribute names without a separator. -/
theorem claim_C7_final_summary_attribute_error :
    ∀ (startEpoch epochNums : Int) (measure : Int → EvalOutcome) (m : Metrics),
      (trainerFit startEpoch epochNums measure m).2 =
        Except.error (PyErr.attributeError "best_test_equ_accuracyself") :=
  fun _ _ _ _ => rfl

/-- C8: the five optimizers of the tree-decoder trainer are not over
disjoint parameter sets: the decoder optimizer is constructed over the
whole model's parameters (trainer.py line 575), so it is not equal to the
decoder submodule's parameter set and overlaps the embedder optimizer's.
The step-decay schedules do halve the learning rate every `step_size`
epochs (gamma 1/2). -/
theorem claim_C8_decoder_optimizer_over_all_params :
    (gtsBuildOptimizer gtsModelEx 1 0 20).decoderOptimizer.params =
      ["embedder.w", "encoder.w", "decoder.w", "node_generater.w", "merge.w"]
    ∧ (gtsBuildOptimizer gtsModelEx 1 0 20).decoderOptimizer.params ≠
      gtsModelEx.decoderParams
    ∧ "embedder.w" ∈ (gtsBuildOptimizer gtsModelEx 1 0 20).decoderOptimizer.params
    ∧ "embedder.w" ∈ (gtsBuildOptimizer gtsModelEx 1 0 20).embedderOptimizer.params
    ∧ (gtsBuildOptimizer gtsModelEx 1 0 20).decoderScheduler =
      { stepSize := 20, gamma := 1/2 } := by
  refine ⟨rfl, ?_, ?_, ?_, rfl⟩ <;> decide

/-- The best-valid-value field never decreases in one update. -/
lemma updateBest_validValue_le (m : Metrics) (e : EvalOutcome) :
    m.bestValidValue ≤ (updateBest m e).1.bestValidValue := by
  unfold updateBest
  split
  · simpa using ‹m.bestValidValue ≤ e.validValue›
  · exact le_refl _

/-- The best-valid-value field never decreases across one epoch of fit. -/
lemma fitStep_validValue_le (every nums : Int) (meas : Int → EvalOutcome)
    (m : Metrics) (epo : Int) :
    m.bestValidValue ≤ (fitStep every nums meas m epo).1.bestValidValue := by
  unfold fitStep
  split
  · exact updateBest_validValue_le m (meas epo)
  · exact le_refl _

/-- The best-valid-value field never decreases across any run of the
epoch loop. -/
lemma fitLoop_validValue_le (every nums : Int) (meas : Int → EvalOutcome) :
    ∀ (l : List Int) (m : Metrics),
      m.bestValidValue ≤ (fitLoop every nums meas m l).1.bestValidValue := by
  intro l
  induction l with
  | nil => intro m; exact le_refl _
  | cons epo rest ih =>
    intro m
    exact le_trans (fitStep_validValue_le every nums meas m epo)
      (ih (fitStep every nums meas m epo).1)

/-- C3 (amended): within one run of `fit`, the best-valid-value-accuracy
field is monotonically non-decreasing across every epoch and across any
run of the epoch loop; the other three best-metric fields do not share
this property (see the counterexample), since a validation value-accuracy
tie overwrites all four fields with the freshly measured accuracies. -/
theorem claim_C3_amended_best_valid_value_monotone :
    ∀ (every nums : Int) (meas : Int → EvalOutcome) (m : Metrics) (epo : Int)
      (l : List Int),
      m.bestValidValue ≤ (fitStep every nums meas m epo).1.bestValidValue
      ∧ m.bestValidValue ≤ (fitLoop every nums meas m l).1.bestValidValue :=
  fun every nums meas m epo l =>
    ⟨fitStep_validValue_le every nums meas m epo,
     fitLoop_validValue_le every nums meas l m⟩

/-- C3 counterexample: in the two-epoch run of `fit` with
`epoch_nums = 2` (epoch list `[0, 1]`, of which `[0]` is the state after
the first epoch), the best-test-value field is 1 after epoch 0 and is
assigned 0 at epoch 1 (the model-save event at epoch 1 shows the
assignment happened), so a best-metric field decreases across consecutive
evaluation points. -/
theorem claim_C3_counterexample_best_test_value_decreases :
    (fitLoop 2 2 measC3 ⟨0, 0, 0, 0⟩ [0]).1.bestTestValue = 1
    ∧ (fitLoop 2 2 measC3 ⟨0, 0, 0, 0⟩ [0, 1]).1.bestTestValue = 0
    ∧ FitEvent.saveModel 1 ∈ (fitLoop 2 2 measC3 ⟨0, 0, 0, 0⟩ [0, 1]).2
    ∧ ¬ ((1 : Rat) ≤ 0) := by
  refine ⟨?_, ?_, ?_, ?_⟩ <;> decide

/-- The embedded `range(a, b)` is Mathlib's integer range. -/
lemma pyRange_eq_range (a b : Int) : pyRange a b = Int.range a b := rfl

/-- Membership in the embedded `range(a, b)`. -/
lemma mem_pyRange {a b x : Int} : x ∈ pyRange a b ↔ a ≤ x ∧ x < b := by
  rw [pyRange_eq_range]; exact Int.mem_range_iff

/-- A trace appended of two traces evaluates at an epoch iff one part
does. -/
lemma hasEvalAt_append (l1 l2 : List FitEvent) (epo : Int) :
    hasEvalAt (l1 ++ l2) epo = (hasEvalAt l1 epo || hasEvalAt l2 epo) := by
  simp [hasEvalAt, List.any_append]

/-- One epoch of `fit` logs evaluation results exactly when the schedule
condition of its epoch holds. -/
lemma hasEvalAt_fitStep (every nums : Int) (meas : Int → EvalOutcome)
    (m : Metrics) (e epo : Int) :
    hasEvalAt (fitStep every nums meas m e).2 epo =
      ((e % every == 0 || decide (e > nums - 5)) && e == epo) := by
  unfold fitStep
  cases hc : (e % every == 0 || decide (e > nums - 5)) with
  | false =>
    cases h5 : (e % 5 == 0) <;> simp [hasEvalAt, hc, h5]
  | true =>
    cases hs : (updateBest m (meas e)).2 <;>
      cases h5 : (e % 5 == 0) <;>
        simp [hasEvalAt, hc, hs, h5]

/-- The epoch loop logs evaluation results at an epoch iff that epoch is
in the loop's range and satisfies the schedule condition. -/
lemma hasEvalAt_fitLoop (every nums : Int) (meas : Int → EvalOutcome) :
    ∀ (l : List Int) (m : Metrics) (epo : Int),
      hasEvalAt (fitLoop every nums meas m l).2 epo =
        (l.any (fun e => e == epo) && (epo % every == 0 || decide (epo > nums - 5))) := by
  intro l
  induction l with
  | nil => intro m epo; simp [fitLoop, hasEvalAt]
  | cons e rest ih =>
    intro m epo
    show hasEvalAt ((fitStep every nums meas m e).2 ++
      (fitLoop every nums meas (fitStep every nums meas m e).1 rest).2) epo = _
    rw [hasEvalAt_append, hasEvalAt_fitStep, ih]
    by_cases he : e = epo
    · subst he
      simp only [List.any_cons, beq_self_eq_true, Bool.true_or, Bool.true_and]
      cases hsched : (e % every == 0 || decide (e > nums - 5)) <;> simp [hsched]
    · have he' : (e == epo) = false := by simp [he]
      simp [List.any_cons, he']

/-- C4 (amended): `fit` runs the two evaluations exactly on the epochs
whose index is divisible by 2 — divisible by 10 for the tree-decoder
(`GTSTrainer`) variant — or greater than `epoch_nums - 5`, within the
range `[start_epoch, epoch_nums)`. -/
theorem claim_C4_amended_eval_schedule :
    ∀ (start nums : Int) (meas : Int → EvalOutcome) (m : Metrics) (epo : Int),
      (hasEvalAt (trainerFit start nums meas m).1 epo = true ↔
        (start ≤ epo ∧ epo < nums ∧ (epo % 2 = 0 ∨ epo > nums - 5)))
      ∧ (hasEvalAt (gtsFit start nums meas m).2 epo = true ↔
        (start ≤ epo ∧ epo < nums ∧ (epo % 10 = 0 ∨ epo > nums - 5))) := by
  intro start nums meas m epo
  constructor
  · show hasEvalAt (fitLoop 2 nums meas m (pyRange start nums)).2 epo = true ↔ _
    rw [hasEvalAt_fitLoop]
    simp only [Bool.and_eq_true, Bool.or_eq_true, List.any_eq_true, beq_iff_eq,
      decide_eq_true_eq]
    constructor
    · rintro ⟨⟨e, he, rfl⟩, hs⟩
      have := mem_pyRange.mp he
      exact ⟨this.1, this.2, hs⟩
    · rintro ⟨h1, h2, hs⟩
      exact ⟨⟨epo, mem_pyRange.mpr ⟨h1, h2⟩, rfl⟩, hs⟩
  · show hasEvalAt (fitLoop 10 nums meas m (pyRange start nums)).2 epo = true ↔ _
    rw [hasEvalAt_fitLoop]
    simp only [Bool.and_eq_true, Bool.or_eq_true, List.any_eq_true, beq_iff_eq,
      decide_eq_true_eq]
    constructor
    · rintro ⟨⟨e, he, rfl⟩, hs⟩
      have := mem_pyRange.mp he
      exact ⟨this.1, this.2, hs⟩
    · rintro ⟨h1, h2, hs⟩
      exact ⟨⟨epo, mem_pyRange.mpr ⟨h1, h2⟩, rfl⟩, hs⟩

/-- C4 witness for the amended claim: in a 20-epoch base-trainer run,
epoch 2 is an evaluation point. -/
theorem claim_C4_amended_eval_schedule_witness :
    hasEvalAt (trainerFit 0 20 measC4 ⟨0, 0, 0, 0⟩).1 2 = true :=
  (claim_C4_amended_eval_schedule 0 20 measC4 ⟨0, 0, 0, 0⟩ 2).1.mpr
    (by refine ⟨by norm_num, by norm_num, Or.inl (by norm_num)⟩)

/-- C4 counterexample: in a 20-epoch tree-decoder (`GTSTrainer`) run,
epoch 2 — whose zero-based index is divisible by 2 and lies in the range —
is not an evaluation point, because the GTS schedule tests divisibility
by 10. -/
theorem claim_C4_counterexample_gts_epoch2_not_evaluated :
    hasEvalAt (gtsFit 0 20 measC4 ⟨0, 0, 0, 0⟩).2 2 = false
    ∧ (2 : Int) % 2 = 0 ∧ (0 : Int) ≤ 2 ∧ (2 : Int) < 20 := by
  refine ⟨?_, by norm_num, by norm_num, by norm_num⟩
  decide

/-- C5: at an evaluation point, the best-metric state is updated and the
model persisted exactly when the measured validation value-accuracy is at
least the recorded best; in that case all four fields become the measured
accuracies, and otherwise the metrics are unchanged and no model save
happens.  The save flag of `updateBest` is the model-save of trainer.py
line 189, also visible as the `saveModel` event of the epoch step. -/
theorem claim_C5_best_update_iff :
    ∀ (m : Metrics) (e : EvalOutcome) (every nums : Int)
      (meas : Int → EvalOutcome) (epo : Int),
      ((updateBest m e).2 = true ↔ m.bestValidValue ≤ e.validValue)
      ∧ ((updateBest m e).2 = true →
          (updateBest m e).1 =
            { bestValidEqu := e.validEqu, bestValidValue := e.validValue,
              bestTestEqu := e.testEqu, bestTestValue := e.testValue })
      ∧ ((updateBest m e).2 = false → (updateBest m e).1 = m)
      ∧ (FitEvent.saveModel epo ∈ (fitStep every nums meas m epo).2 ↔
          ((epo % every == 0 || decide (epo > nums - 5)) = true
            ∧ m.bestValidValue ≤ (meas epo).validValue)) := by
  intro m e every nums meas epo
  refine ⟨?_, ?_, ?_, ?_⟩
  · unfold updateBest
    split
    · simpa using ‹m.bestValidValue ≤ e.validValue›
    · simpa using ‹¬ m.bestValidValue ≤ e.validValue›
  · unfold updateBest
    split
    · intro _; rfl
    · intro h; simp at h
  · unfold updateBest
    split
    · intro h; simp at h
    · intro _; rfl
  · unfold fitStep
    cases hc : (epo % every == 0 || decide (epo > nums - 5)) with
    | false =>
      cases h5 : (epo % 5 == 0) <;> simp [hc, h5]
    | true =>
      cases hs : (updateBest m (meas epo)).2 with
      | false =>
        have hle : ¬ m.bestValidValue ≤ (meas epo).validValue := by
          unfold updateBest at hs
          by_contra hcon
          simp [hcon] at hs
        cases h5 : (epo % 5 == 0) <;> simp [hc, hs, h5, hle]
      | true =>
        have hle : m.bestValidValue ≤ (meas epo).validValue := by
          unfold updateBest at hs
          by_contra hcon
          simp [hcon] at hs
        cases h5 : (epo % 5 == 0) <;> simp [hc, hs, h5, hle]

/-- C5 witness: a concrete improving evaluation updates all four fields,
and a concrete non-improving one leaves the metrics unchanged. -/
theorem claim_C5_best_update_iff_witness :
    (updateBest ⟨0, 0, 0, 0⟩ ⟨1, 1, 1, 1⟩).1 =
      ({ bestValidEqu := 1, bestValidValue := 1, bestTestEqu := 1, bestTestValue := 1 } : Metrics)
    ∧ (updateBest ⟨0, 1, 0, 0⟩ ⟨1, 0, 1, 1⟩).1 = (⟨0, 1, 0, 0⟩ : Metrics) :=
  ⟨(claim_C5_best_update_iff ⟨0, 0, 0, 0⟩ ⟨1, 1, 1, 1⟩ 2 2 measC3 0).2.1 (by decide),
   (claim_C5_best_update_iff ⟨0, 1, 0, 0⟩ ⟨1, 0, 1, 1⟩ 2 2 measC3 0).2.2.1 (by decide)⟩

/-- Bind of a succeeding Except computation. -/
lemma ok_bind {α β : Type} (a : α) (f : α → Except PyErr β) :
    (Except.ok a >>= f) = f a := rfl

/-- Bind of a failing Except computation. -/
lemma error_bind {α β : Type} (e : PyErr) (f : α → Except PyErr β) :
    ((Except.error e : Except PyErr α) >>= f) = Except.error e := rfl

/-- The source's per-token translation succeeds exactly as the
double-lookup map does. -/
lemma reindexTok_ok_iff (inW : List String) (outS : List (String × Int)) (tok : Nat) (v : Int) :
    reindexTok inW outS tok = Except.ok v ↔ reindexSpec inW outS tok = some v := by
  cases h1 : inW[tok]? with
  | none =>
    simp only [reindexTok, pyListGet, h1, error_bind]
    simp [reindexSpec, h1]
  | some w =>
    simp only [reindexTok, pyListGet, h1, ok_bind]
    simp only [reindexSpec, h1, Option.some_bind]
    unfold pyDictGet
    cases h2 : pyDictLookup outS w <;> simp [h2]

/-- A token whose input-vocabulary word is absent from the output
vocabulary raises KeyError on that word. -/
lemma reindexTok_err (inW : List String) (outS : List (String × Int)) (tok : Nat) (w : String)
    (h1 : inW[tok]? = some w) (h2 : pyDictLookup outS w = none) :
    reindexTok inW outS tok = Except.error (PyErr.keyError w) := by
  simp only [reindexTok, pyListGet, h1, ok_bind]
  simp [pyDictGet, h2]

/-- A successful row translation translates each position. -/
lemma reindexRow_ok_get (inW : List String) (outS : List (String × Int)) :
    ∀ (row : List Nat) (out : List Int), reindexRow inW outS row = Except.ok out →
      ∀ (i : Nat) (tok : Nat), row[i]? = some tok →
        ∃ v, reindexTok inW outS tok = Except.ok v ∧ out[i]? = some v := by
  intro row
  induction row with
  | nil => intro out _ i tok hi; simp at hi
  | cons t rest ih =>
    intro out hout i tok hi
    simp only [reindexRow] at hout
    cases hv : reindexTok inW outS t with
    | error e => rw [hv, error_bind] at hout; simp at hout
    | ok v =>
      rw [hv, ok_bind] at hout
      cases hvs : reindexRow inW outS rest with
      | error e => rw [hvs, error_bind] at hout; simp at hout
      | ok vs =>
        rw [hvs, ok_bind] at hout
        have hout' : v :: vs = out := by simpa using hout
        subst hout'
        cases i with
        | zero =>
          have : t = tok := by simpa using hi
          subst this
          exact ⟨v, hv, by simp⟩
        | succ j =>
          have hi' : rest[j]? = some tok := by simpa using hi
          obtain ⟨u, hu, hg⟩ := ih vs hvs j tok hi'
          exact ⟨u, hu, by simpa using hg⟩

/-- A row containing an untranslatable token never translates. -/
lemma reindexRow_err_of_mem (inW : List String) (outS : List (String × Int)) :
    ∀ (row : List Nat) (tok : Nat), tok ∈ row →
      (∀ v, reindexTok inW outS tok ≠ Except.ok v) →
      ∀ out, reindexRow inW outS row ≠ Except.ok out := by
  intro row
  induction row with
  | nil => intro tok h; simp at h
  | cons t rest ih =>
    intro tok hmem hbad out hout
    simp only [reindexRow] at hout
    cases hv : reindexTok inW outS t with
    | error e => rw [hv, error_bind] at hout; simp at hout
    | ok v =>
      rw [hv, ok_bind] at hout
      cases hvs : reindexRow inW outS rest with
      | error e => rw [hvs, error_bind] at hout; simp at hout
      | ok vs =>
        rcases List.mem_cons.mp hmem with h | h
        · subst h; exact hbad v hv
        · exact ih tok h hbad vs hvs

/-- A successful batch translation translates each row. -/
lemma idx2word2idx_ok_get (inW : List String) (outS : List (String × Int)) :
    ∀ (eqn : List (List Nat)) (outs : List (List Int)),
      idx2word2idx inW outS eqn = Except.ok outs →
      ∀ (b : Nat) (row : List Nat), eqn[b]? = some row →
        ∃ r, reindexRow inW outS row = Except.ok r ∧ outs[b]? = some r := by
  intro eqn
  induction eqn with
  | nil => intro outs _ b row hb; simp at hb
  | cons r0 rest ih =>
    intro outs houts b row hb
    simp only [idx2word2idx] at houts
    cases hr : reindexRow inW outS r0 with
    | error e => rw [hr, error_bind] at houts; simp at houts
    | ok r =>
      rw [hr, ok_bind] at houts
      cases hrs : idx2word2idx inW outS rest with
      | error e => rw [hrs, error_bind] at houts; simp at houts
      | ok rs =>
        rw [hrs, ok_bind] at houts
        have houts' : r :: rs = outs := by simpa using houts
        subst houts'
        cases b with
        | zero =>
          have : r0 = row := by simpa using hb
          subst this
          exact ⟨r, hr, by simp⟩
        | succ j =>
          have hb' : rest[j]? = some row := by simpa using hb
          obtain ⟨u, hu, hg⟩ := ih rs hrs j row hb'
          exact ⟨u, hu, by simpa using hg⟩

/-- A batch containing an untranslatable row never translates. -/
lemma idx2word2idx_err_of_mem (inW : List String) (outS : List (String × Int)) :
    ∀ (eqn : List (List Nat)) (row : List Nat), row ∈ eqn →
      (∀ r, reindexRow inW outS row ≠ Except.ok r) →
      ∀ outs, idx2word2idx inW outS eqn ≠ Except.ok outs := by
  intro eqn
  induction eqn with
  | nil => intro row h; simp at h
  | cons r0 rest ih =>
    intro row hmem hbad outs houts
    simp only [idx2word2idx] at houts
    cases hr : reindexRow inW outS r0 with
    | error e => rw [hr, error_bind] at houts; simp at houts
    | ok r =>
      rw [hr, ok_bind] at houts
      cases hrs : idx2word2idx inW outS rest with
      | error e => rw [hrs, error_bind] at houts; simp at houts
      | ok rs =>
        rcases List.mem_cons.mp hmem with h | h
        · subst h; exact hbad r hr
        · exact ih row h hbad rs hrs

/-- C6: `_idx2word_2idx` maps every position of the batch through the
input-vocabulary word and then that word's output-vocabulary index, and a
position whose word is absent from the output vocabulary makes the whole
translation fail (with a KeyError, never a success). -/
theorem claim_C6_reindex_double_lookup :
    ∀ (inW : List String) (outS : List (String × Int)) (eqn : List (List Nat)),
      (∀ outs, idx2word2idx inW outS eqn = Except.ok outs →
        ∀ (b i : Nat) (row : List Nat) (tok : Nat),
          eqn[b]? = some row → row[i]? = some tok →
          ∃ v, reindexSpec inW outS tok = some v ∧
            outs[b]?.bind (fun r => r[i]?) = some v)
      ∧ (∀ (b i : Nat) (row : List Nat) (tok : Nat) (w : String),
          eqn[b]? = some row → row[i]? = some tok →
          inW[tok]? = some w → pyDictLookup outS w = none →
          ∀ outs, idx2word2idx inW outS eqn ≠ Except.ok outs) := by
  intro inW outS eqn
  constructor
  · intro outs houts b i row tok hb hi
    obtain ⟨r, hr, hbr⟩ := idx2word2idx_ok_get inW outS eqn outs houts b row hb
    obtain ⟨v, hv, hiv⟩ := reindexRow_ok_get inW outS row r hr i tok hi
    refine ⟨v, (reindexTok_ok_iff inW outS tok v).mp hv, ?_⟩
    rw [hbr]
    simpa using hiv
  · intro b i row tok w hb hi h1 h2 outs
    have hbad : ∀ v, reindexTok inW outS tok ≠ Except.ok v := by
      intro v hv
      rw [reindexTok_err inW outS tok w h1 h2] at hv
      simp at hv
    have hrowmem : tok ∈ row := by
      have := List.getElem?_eq_some_iff.mp hi
      obtain ⟨hlt, hg⟩ := this
      exact hg ▸ List.getElem_mem hlt
    have hrowbad : ∀ r, reindexRow inW outS row ≠ Except.ok r :=
      reindexRow_err_of_mem inW outS row tok hrowmem hbad
    have heqmem : row ∈ eqn := by
      have := List.getElem?_eq_some_iff.mp hb
      obtain ⟨hlt, hg⟩ := this
      exact hg ▸ List.getElem_mem hlt
    exact idx2word2idx_err_of_mem inW outS eqn row heqmem hrowbad outs

/-- C6 witness: the scenario input `[3, 7, 2]` translates to `[1, 5, 9]`,
and with "x" absent from the output vocabulary the translation never
succeeds. -/
theorem claim_C6_reindex_double_lookup_witness :
    idx2word2idx inWC6 outSC6 [[3, 7, 2]] = Except.ok [[1, 5, 9]]
    ∧ (∀ outs, idx2word2idx inWC6 outSC6bad [[3, 7, 2]] ≠ Except.ok outs) :=
  ⟨rfl,
   (claim_C6_reindex_double_lookup inWC6 outSC6bad [[3, 7, 2]]).2
     0 2 [3, 7, 2] 2 "x" rfl rfl rfl rfl⟩

/-- A fold whose step fixes every accumulator returns its argument. -/
lemma foldl_fixed {α β : Type} (f : α → β → α) :
    ∀ (l : List β), (∀ x ∈ l, ∀ a, f a x = a) → ∀ (acc : α), l.foldl f acc = acc := by
  intro l
  induction l with
  | nil => intro _ acc; rfl
  | cons x rest ih =>
    intro h acc
    rw [List.foldl_cons, h x (by simp)]
    exact ih (fun y hy a => h y (by simp [hy]) a) acc

/-- A list of falses counts zero trues. -/
lemma countTrue_eq_zero (l : List Bool) (h : ∀ b ∈ l, b = false) : countTrue l = 0 := by
  unfold countTrue
  exact foldl_fixed _ l (fun b hb a => by rw [h b hb]; simp) 0

/-- When every generated token at a rollout step is padding, the step
contributes nothing to the reward. -/
lemma rewardStep_fixed (padToken : Int) (outputs : List (List Int))
    (discMean tokenLogits : Nat → List Rat) (idx : Nat)
    (h : ∀ row ∈ outputs, row.getD idx 0 = padToken) (acc : Rat) :
    rewardStep padToken outputs discMean tokenLogits acc idx = acc := by
  have hmask : ∀ b ∈ maskAt padToken outputs idx, b = false := by
    intro b hb
    simp only [maskAt, List.mem_map] at hb
    obtain ⟨row, hrow, rfl⟩ := hb
    rw [if_pos (h row hrow)]
  simp only [rewardStep]
  rw [countTrue_eq_zero _ hmask]
  simp

/-- When every generated token at every rollout step is padding, the
reward is exactly zero. -/
lemma getReward_pad (padToken : Int) (outputs : List (List Int)) (mcSteps : Nat)
    (discMean tokenLogits : Nat → List Rat)
    (h : ∀ row ∈ outputs, ∀ idx, idx < mcSteps → row.getD idx 0 = padToken) :
    getReward padToken outputs mcSteps discMean tokenLogits = 0 := by
  unfold getReward
  rw [foldl_fixed _ (List.range mcSteps)
    (fun idx hidx acc => rewardStep_fixed padToken outputs discMean tokenLogits idx
      (fun row hrow => h row hrow idx (List.mem_range.mp hidx)) acc) 0]
  exact neg_zero

/-- C9 (amended): in the adversarial phase, when every token the
generator produced for the batch is the padding token at every rollout
step, the policy-gradient generator loss computed through `get_reward` is
exactly zero — the mask is taken over the generated outputs, not over the
batch's target tokens. -/
theorem claim_C9_amended_pad_outputs_zero_reward :
    ∀ (padToken : Int) (gen : SGBatch → GenOut)
      (discMean tokenLogits : Nat → List Rat) (batch : SGBatch),
      (∀ row ∈ (gen batch).outputs, ∀ idx, idx < (gen batch).mcSteps →
        row.getD idx 0 = padToken) →
      advGeneratorLoss padToken gen discMean tokenLogits batch = 0 :=
  fun padToken gen discMean tokenLogits batch h =>
    getReward_pad padToken (gen batch).outputs (gen batch).mcSteps discMean tokenLogits h

/-- C9 witness: with all-padding generated outputs the loss is zero. -/
theorem claim_C9_amended_pad_outputs_zero_reward_witness :
    advGeneratorLoss 5 genC9pad discC9w logitsC9w ⟨[[5, 5]]⟩ = 0 :=
  claim_C9_amended_pad_outputs_zero_reward 5 genC9pad discC9w logitsC9w ⟨[[5, 5]]⟩
    (by decide)

/-- C9 counterexample: a batch whose target tokens are all the padding
token (0) can still produce a nonzero adversarial generator loss, because
`get_reward` masks on the generator's outputs and never consults the
targets: here the loss is -1, not 0. -/
theorem claim_C9_counterexample_pad_targets_nonzero_reward :
    (∀ row ∈ (SGBatch.mk [[0, 0]]).equation, ∀ t ∈ row, t = (0 : Int))
    ∧ advGeneratorLoss 0 genC9 discC9 logitsC9 ⟨[[0, 0]]⟩ = -1
    ∧ (-1 : Rat) ≠ 0 := by
  refine ⟨by decide, ?_, by norm_num⟩
  norm_num [advGeneratorLoss, genC9, discC9, logitsC9, getReward, rewardStep,
    maskAt, countTrue, List.range_succ]

/-- A scheduled epoch anywhere in the adversarial loop aborts it with the
TypeError from the argument-less `evaluate()` call. -/
lemma seqganFitLoop_err (nums : Int) (batches : List BatchEvalResult) :
    ∀ (l : List Int) (bv : Option Rat),
      (∃ e ∈ l, e % 2 = 0 ∨ e > nums - 5) →
      seqganFitLoop nums batches bv l =
        Except.error (PyErr.typeErrorMissingArg "evaluate" "eval_set") := by
  intro l
  induction l with
  | nil => intro bv h; simp at h
  | cons e rest ih =>
    intro bv h
    by_cases hc : (e % 2 == 0 || decide (e > nums - 5)) = true
    · simp only [seqganFitLoop, hc, if_true]
      rfl
    · have hrest : ∃ x ∈ rest, x % 2 = 0 ∨ x > nums - 5 := by
        rcases h with ⟨x, hx, hxs⟩
        rcases List.mem_cons.mp hx with rfl | hxr
        · exact absurd (by simpa using hxs) (by simpa using hc)
        · exact ⟨x, hxr, hxs⟩
      simp only [seqganFitLoop, hc, if_false]
      exact ih bv hrest

/-- C10: with resume disabled, any run of `SeqGANTrainer.fit` whose epoch
range contains a scheduled evaluation epoch (index divisible by 2 or in
the last four) raises instead of completing: the call `self.evaluate()`
omits the required `eval_set` argument, and the `best_value_accuracy`
attribute it would then compare against is only ever assigned inside
`_load_checkpoint`. -/
theorem claim_C10_seqgan_fit_raises :
    ∀ (startEpoch epochNums : Int) (batches : List BatchEvalResult),
      (∃ epo, startEpoch ≤ epo ∧ epo < epochNums ∧ (epo % 2 = 0 ∨ epo > epochNums - 5)) →
      seqganFit startEpoch epochNums batches =
        Except.error (PyErr.typeErrorMissingArg "evaluate" "eval_set") := by
  intro startEpoch epochNums batches h
  obtain ⟨epo, h1, h2, h3⟩ := h
  exact seqganFitLoop_err epochNums batches (pyRange startEpoch epochNums) none
    ⟨epo, mem_pyRange.mpr ⟨h1, h2⟩, h3⟩

/-- C10 witness: a one-epoch adversarial run raises the TypeError. -/
theorem claim_C10_seqgan_fit_raises_witness :
    seqganFit 0 1 [] = Except.error (PyErr.typeErrorMissingArg "evaluate" "eval_set") :=
  claim_C10_seqgan_fit_raises 0 1 []
    ⟨0, by norm_num, by norm_num, Or.inl (by norm_num)⟩

end MWP
